import Mathlib

/-!
# Verification of the feedback crate

A shallow embedding of the feedback crate's message model, checksum
capability, decode path (src/parse.rs) and encode/send path (src/send.rs),
with the claims of the specification settled as theorems below.

Notes on the embedding:

* Wire bytes (Rust u8) are modelled as Fin 256; arithmetic on them is the
  source's unsigned arithmetic with the wraparound made explicit.
* Rust slices of bytes are Lean lists of Byte.  The source casts the slice
  length to u32 before comparing it (input.len() as u32); the embedding
  keeps that cast as an explicit reduction modulo 2^32.
* The nine f64 fields of the Imu message are modelled by their 8-byte
  native-endian wire representations, exactly the bytes the decoder slices
  out of the input; the 0.0 placeholder written into temp_c is the all-zero
  8-byte pattern.
* The source tree is in a mixed state: src/lib.rs carries a six-wheel
  revision of the Wheels struct with an unchecked 7-argument constructor,
  while src/parse.rs, src/send.rs and src/checksum.rs are all written
  against a two-motor revision (fields left, right, checksum) whose
  2-argument constructor Wheels::new is called by the decoder but is not
  present under src.  The embedding follows the two-motor revision those
  three files use; the missing constructor is modelled from the spec and
  marked as such.
-/

/-- A wire byte: Rust u8. -/
abbrev Byte := Fin 256

/-- Modulus of the u32 cast that parse applies to the input slice length
(input.len() as u32 in src/parse.rs). -/
def U32_MOD : Nat := 4294967296

/-- The Wheels message of the protocol revision that src/parse.rs,
src/send.rs and src/checksum.rs are written against: left and right motor
speeds plus a checksum byte.  (src/lib.rs carries a different, six-wheel
revision of this struct that the rest of the source does not use.) -/
structure Wheels where
  left : Byte
  right : Byte
  checksum : Byte
deriving DecidableEq

/-- Wheels subsystem byte (src/lib.rs). -/
def Wheels.SUBSYSTEM_BYTE : Byte := 1

/-- Wheels part byte (src/lib.rs). -/
def Wheels.PART_BYTE : Byte := 1

/-- The flashing LED on the top of the Rover (src/lib.rs). -/
structure Led where
  red : Byte
  green : Byte
  blue : Byte
deriving DecidableEq

/-- Led subsystem byte (src/lib.rs): shared with Wheels. -/
def Led.SUBSYSTEM_BYTE : Byte := 1

/-- Led part byte (src/lib.rs). -/
def Led.PART_BYTE : Byte := 2

/-- The robotic arm (src/lib.rs). -/
structure Arm where
  bicep : Byte
  forearm : Byte
  base : Byte
  wrist_pitch : Byte
  wrist_roll : Byte
  claw : Byte
  checksum : Byte
deriving DecidableEq

/-- Arm subsystem byte (src/lib.rs). -/
def Arm.SUBSYSTEM_BYTE : Byte := 2

/-- The science package (src/lib.rs). -/
structure Science where
  big_actuator : Byte
  drill : Byte
  small_actuator : Byte
  test_tubes : Byte
  camera_servo : Byte
  checksum : Byte
deriving DecidableEq

/-- Science subsystem byte (src/lib.rs). -/
def Science.SUBSYSTEM_BYTE : Byte := 3

/-- IMU data (src/lib.rs as constructed by src/parse.rs).  Each f64 field is
modelled by its 8-byte native-endian wire representation; temp_c is the
field parse.rs populates with the fixed 0.0 placeholder (all-zero bytes). -/
structure Imu where
  accel_x : List Byte
  accel_y : List Byte
  accel_z : List Byte
  gyro_x : List Byte
  gyro_y : List Byte
  gyro_z : List Byte
  compass_x : List Byte
  compass_y : List Byte
  compass_z : List Byte
  temp_c : List Byte
deriving DecidableEq

/-- Imu subsystem byte (src/lib.rs). -/
def Imu.SUBSYSTEM_BYTE : Byte := 4

/-- The checksum computation shared by every checksummed variant
(src/checksum.rs, trait default method): sum the payload bytes as u32 and
keep the low 8 bits.  The intermediate u32 accumulation is kept explicit as
a reduction modulo 2^32. -/
def computeChecksum (bytes : List Byte) : Byte :=
  ⟨((bytes.map Fin.val).sum % U32_MOD) % 256, Nat.mod_lt _ (by decide)⟩

/-- The bytes checksummed for a Wheels message (src/checksum.rs). -/
def Wheels.to_checksum_array (w : Wheels) : List Byte :=
  [w.left, w.right]

/-- The checksum trait method for Wheels (src/checksum.rs); named
computedChecksum here because the source method name collides with the
struct field in Lean. -/
def Wheels.computedChecksum (w : Wheels) : Byte :=
  computeChecksum w.to_checksum_array

/-- Checksum verification for Wheels (src/checksum.rs): compare the stored
field against the freshly computed value. -/
def Wheels.is_checksum_correct (w : Wheels) : Bool :=
  decide (w.checksum = w.computedChecksum)

/-- The bytes checksummed for an Arm message (src/checksum.rs). -/
def Arm.to_checksum_array (a : Arm) : List Byte :=
  [a.bicep, a.forearm, a.base, a.wrist_pitch, a.wrist_roll, a.claw]

/-- The checksum trait method for Arm (src/checksum.rs). -/
def Arm.computedChecksum (a : Arm) : Byte :=
  computeChecksum a.to_checksum_array

/-- Checksum verification for Arm (src/checksum.rs). -/
def Arm.is_checksum_correct (a : Arm) : Bool :=
  decide (a.checksum = a.computedChecksum)

/-- The bytes checksummed for a Science message (src/checksum.rs). -/
def Science.to_checksum_array (s : Science) : List Byte :=
  [s.big_actuator, s.drill, s.small_actuator, s.test_tubes, s.camera_servo]

/-- The checksum trait method for Science (src/checksum.rs). -/
def Science.computedChecksum (s : Science) : Byte :=
  computeChecksum s.to_checksum_array

/-- Checksum verification for Science (src/checksum.rs). -/
def Science.is_checksum_correct (s : Science) : Bool :=
  decide (s.checksum = s.computedChecksum)

/-- Modelled from the spec: the two-argument Wheels constructor that
src/parse.rs calls (Wheels::new(input[2], input[3])) is not present under
src (src/lib.rs carries the six-wheel revision's unchecked 7-argument
constructor instead).  Per the spec, construction of a Wheels computes its
checksum automatically from its payload bytes using 8-bit wraparound
addition. -/
def Wheels.new (left right : Byte) : Wheels :=
  { left := left, right := right, checksum := computeChecksum [left, right] }

/-- Modelled from the spec: no Arm constructor exists under src; this is the
checksum-deriving constructor the spec's checksum-correctness property
quantifies over, deriving the checksum from the six payload bytes. -/
def Arm.withChecksum (bicep forearm base wrist_pitch wrist_roll claw : Byte) : Arm :=
  { bicep := bicep, forearm := forearm, base := base, wrist_pitch := wrist_pitch,
    wrist_roll := wrist_roll, claw := claw,
    checksum := computeChecksum [bicep, forearm, base, wrist_pitch, wrist_roll, claw] }

/-- Modelled from the spec: no Science constructor exists under src; this is
the checksum-deriving constructor the spec's checksum-correctness property
quantifies over, deriving the checksum from the five payload bytes. -/
def Science.withChecksum (big_actuator drill small_actuator test_tubes camera_servo : Byte) :
    Science :=
  { big_actuator := big_actuator, drill := drill, small_actuator := small_actuator,
    test_tubes := test_tubes, camera_servo := camera_servo,
    checksum := computeChecksum
      [big_actuator, drill, small_actuator, test_tubes, camera_servo] }

/-- An error occurring while parsing a Message (src/error.rs). -/
inductive ParsingError where
  | ZeroLengthSlice
  | InvalidSubsystem (b : Byte)
  | NoEboxPart
  | LengthInconsistency (subsystem part : Byte) (length expected_length : Nat)
  | MalformedMessage
deriving DecidableEq

/-- Any kind of message sent to/from the rover (src/parse.rs). -/
inductive Message where
  | Wheels (w : Wheels)
  | Led (l : Led)
  | Arm (a : Arm)
  | Science (s : Science)
  | Imu (i : Imu)
deriving DecidableEq

/-- Length check shared by all variants (src/parse.rs, check_length): the
input length (already cast to u32) must equal the expected length, else a
LengthInconsistency error carrying both is returned. -/
def check_length (input_len : Nat) (subsystem part : Byte) (expected : Nat) :
    Except ParsingError Unit :=
  if input_len ≠ expected then
    .error (.LengthInconsistency subsystem part input_len expected)
  else
    .ok ()

/-- The 8-byte sub-slice input[a..a+8] that the Imu branch of parse feeds to
f64::from_ne_bytes. -/
def readF64 (input : List Byte) (a : Nat) : List Byte :=
  (input.drop a).take 8

/-- Parse an input slice into a valid message (src/parse.rs, parse).  The
slice indexing the source performs after its length checks is embedded with
List.getD; parseChecked below models the same accesses with bounds-checked
lookups and is proved to agree, which is the no-panic property. -/
def parse (input : List Byte) : Except ParsingError Message :=
  let input_len : Nat := input.length % U32_MOD
  if input_len < 1 then
    .error .ZeroLengthSlice
  else
    let subsystem := input.getD 0 0
    if subsystem = Wheels.SUBSYSTEM_BYTE then
      if input_len < 2 then
        .error .NoEboxPart
      else
        let part := input.getD 1 0
        if part = Wheels.PART_BYTE then
          match check_length input_len subsystem part 5 with
          | .error e => .error e
          | .ok _ => .ok (.Wheels (Wheels.new (input.getD 2 0) (input.getD 3 0)))
        else if part = Led.PART_BYTE then
          match check_length input_len subsystem part 5 with
          | .error e => .error e
          | .ok _ =>
            .ok (.Led { red := input.getD 2 0, green := input.getD 3 0,
                        blue := input.getD 4 0 })
        else
          .error (.InvalidSubsystem part)
    else if subsystem = Arm.SUBSYSTEM_BYTE then
      match check_length input_len subsystem 0 8 with
      | .error e => .error e
      | .ok _ =>
        .ok (.Arm { bicep := input.getD 1 0, forearm := input.getD 2 0,
                    base := input.getD 3 0, wrist_pitch := input.getD 4 0,
                    wrist_roll := input.getD 5 0, claw := input.getD 6 0,
                    checksum := input.getD 7 0 })
    else if subsystem = Science.SUBSYSTEM_BYTE then
      match check_length input_len subsystem 0 7 with
      | .error e => .error e
      | .ok _ =>
        .ok (.Science { big_actuator := input.getD 1 0, drill := input.getD 2 0,
                        small_actuator := input.getD 3 0, test_tubes := input.getD 4 0,
                        camera_servo := input.getD 5 0, checksum := input.getD 6 0 })
    else if subsystem = Imu.SUBSYSTEM_BYTE then
      match check_length input_len subsystem 0 73 with
      | .error e => .error e
      | .ok _ =>
        .ok (.Imu { accel_x := readF64 input 1, accel_y := readF64 input 9,
                    accel_z := readF64 input 17,
                    gyro_x := readF64 input 25, gyro_y := readF64 input 33,
                    gyro_z := readF64 input 41,
                    compass_x := readF64 input 49, compass_y := readF64 input 57,
                    compass_z := readF64 input 65,
                    temp_c := List.replicate 8 0 })
    else
      .error (.InvalidSubsystem subsystem)

/-- The sub-slice access input[a..a+8].try_into().unwrap() of the Imu
branch, with the out-of-range panic modelled as none: the conversion
demands exactly eight bytes. -/
def readF64Checked (input : List Byte) (a : Nat) : Option (List Byte) :=
  if ((input.drop a).take 8).length = 8 then some ((input.drop a).take 8) else none

/-- The decode path again, with every slice index and sub-slice conversion
modelled as a bounds-checked access whose failure (a Rust panic) is none.
Agreement with parse (proved below) is the statement that parse never
panics and returns exactly one outcome per input. -/
def parseChecked (input : List Byte) : Option (Except ParsingError Message) :=
  let input_len : Nat := input.length % U32_MOD
  if input_len < 1 then
    some (.error .ZeroLengthSlice)
  else
    match input.get? 0 with
    | none => none
    | some subsystem =>
      if subsystem = Wheels.SUBSYSTEM_BYTE then
        if input_len < 2 then
          some (.error .NoEboxPart)
        else
          match input.get? 1 with
          | none => none
          | some part =>
            if part = Wheels.PART_BYTE then
              match check_length input_len subsystem part 5 with
              | .error e => some (.error e)
              | .ok _ =>
                match input.get? 2, input.get? 3 with
                | some b2, some b3 => some (.ok (.Wheels (Wheels.new b2 b3)))
                | _, _ => none
            else if part = Led.PART_BYTE then
              match check_length input_len subsystem part 5 with
              | .error e => some (.error e)
              | .ok _ =>
                match input.get? 2, input.get? 3, input.get? 4 with
                | some b2, some b3, some b4 =>
                  some (.ok (.Led { red := b2, green := b3, blue := b4 }))
                | _, _, _ => none
            else
              some (.error (.InvalidSubsystem part))
      else if subsystem = Arm.SUBSYSTEM_BYTE then
        match check_length input_len subsystem 0 8 with
        | .error e => some (.error e)
        | .ok _ =>
          match input.get? 1, input.get? 2, input.get? 3, input.get? 4,
              input.get? 5, input.get? 6, input.get? 7 with
          | some b1, some b2, some b3, some b4, some b5, some b6, some b7 =>
            some (.ok (.Arm { bicep := b1, forearm := b2, base := b3,
                              wrist_pitch := b4, wrist_roll := b5, claw := b6,
                              checksum := b7 }))
          | _, _, _, _, _, _, _ => none
      else if subsystem = Science.SUBSYSTEM_BYTE then
        match check_length input_len subsystem 0 7 with
        | .error e => some (.error e)
        | .ok _ =>
          match input.get? 1, input.get? 2, input.get? 3, input.get? 4,
              input.get? 5, input.get? 6 with
          | some b1, some b2, some b3, some b4, some b5, some b6 =>
            some (.ok (.Science { big_actuator := b1, drill := b2,
                                  small_actuator := b3, test_tubes := b4,
                                  camera_servo := b5, checksum := b6 }))
          | _, _, _, _, _, _ => none
      else if subsystem = Imu.SUBSYSTEM_BYTE then
        match check_length input_len subsystem 0 73 with
        | .error e => some (.error e)
        | .ok _ =>
          match readF64Checked input 1, readF64Checked input 9, readF64Checked input 17,
              readF64Checked input 25, readF64Checked input 33, readF64Checked input 41,
              readF64Checked input 49, readF64Checked input 57, readF64Checked input 65 with
          | some ax, some ay, some az, some gx, some gy, some gz,
              some cx, some cy, some cz =>
            some (.ok (.Imu { accel_x := ax, accel_y := ay, accel_z := az,
                              gyro_x := gx, gyro_y := gy, gyro_z := gz,
                              compass_x := cx, compass_y := cy, compass_z := cz,
                              temp_c := List.replicate 8 0 }))
          | _, _, _, _, _, _, _, _, _ => none
      else
        some (.error (.InvalidSubsystem subsystem))

/-- An error that can occur when sending messages to the Rover
(src/error.rs).  The io::Error payload of the socket variant is not
modelled. -/
inductive SendError where
  | MessageFailedValidation (e : ParsingError)
  | SocketError
deriving DecidableEq

/-- Controls the Rover (src/send.rs).  The UDP socket is modelled by the
list of datagrams transmitted through it so far. -/
structure RoverController where
  sent : List (List Byte)
deriving DecidableEq

/-- The 5-byte buffer send_wheels writes (src/send.rs): subsystem byte, part
byte, left speed, right speed, checksum. -/
def wheelsMessage (wheels : Wheels) : List Byte :=
  [Wheels.SUBSYSTEM_BYTE, Wheels.PART_BYTE, wheels.left, wheels.right, wheels.checksum]

/-- The 5-byte buffer send_led writes (src/send.rs): subsystem byte, part
byte, red, green, blue. -/
def ledMessage (lights : Led) : List Byte :=
  [Led.SUBSYSTEM_BYTE, Led.PART_BYTE, lights.red, lights.green, lights.blue]

/-- The 8-byte buffer send_arm writes (src/send.rs): subsystem byte (no part
byte), the six joint fields in order, checksum. -/
def armMessage (arm : Arm) : List Byte :=
  [Arm.SUBSYSTEM_BYTE, arm.bicep, arm.forearm, arm.base, arm.wrist_pitch,
    arm.wrist_roll, arm.claw, arm.checksum]

/-- Attempts to send the given wheel speeds (src/send.rs, send_wheels):
build the buffer, re-run the decoder over it, and only on success hand the
buffer to the socket.  A decode failure propagates as
MessageFailedValidation before anything is transmitted. -/
def RoverController.send_wheels (self : RoverController) (wheels : Wheels) :
    Except SendError Unit × RoverController :=
  let message := wheelsMessage wheels
  match parse message with
  | .error e => (.error (.MessageFailedValidation e), self)
  | .ok _ => (.ok (), { self with sent := self.sent ++ [message] })

/-- Attempts to send the given light color (src/send.rs, send_led). -/
def RoverController.send_led (self : RoverController) (lights : Led) :
    Except SendError Unit × RoverController :=
  let message := ledMessage lights
  match parse message with
  | .error e => (.error (.MessageFailedValidation e), self)
  | .ok _ => (.ok (), { self with sent := self.sent ++ [message] })

/-- Attempts to send the arm state (src/send.rs, send_arm). -/
def RoverController.send_arm (self : RoverController) (arm : Arm) :
    Except SendError Unit × RoverController :=
  let message := armMessage arm
  match parse message with
  | .error e => (.error (.MessageFailedValidation e), self)
  | .ok _ => (.ok (), { self with sent := self.sent ++ [message] })

/-- Modelled from the spec: no Science encoder exists under src; the spec's
byte layout table gives subsystem byte 0x03 followed by the five payload
bytes and the checksum. -/
def scienceMessage (sci : Science) : List Byte :=
  [Science.SUBSYSTEM_BYTE, sci.big_actuator, sci.drill, sci.small_actuator,
    sci.test_tubes, sci.camera_servo, sci.checksum]

/-- Modelled from the spec: no Imu encoder exists under src; the spec's byte
layout table gives subsystem byte 0x04 followed by the nine 8-byte doubles
(accel xyz, gyro xyz, compass xyz), the temperature field not being carried
on the wire. -/
def imuMessage (imu : Imu) : List Byte :=
  Imu.SUBSYSTEM_BYTE ::
    (imu.accel_x ++ (imu.accel_y ++ (imu.accel_z ++
      (imu.gyro_x ++ (imu.gyro_y ++ (imu.gyro_z ++
        (imu.compass_x ++ (imu.compass_y ++ imu.compass_z))))))))

/-- The encode path over the whole Message union: the buffers the three send
operations of src/send.rs write, extended per the spec's layout table for
the two variants src has no encoder for. -/
def encodeMessage : Message → List Byte
  | .Wheels w => wheelsMessage w
  | .Led l => ledMessage l
  | .Arm a => armMessage a
  | .Science s => scienceMessage s
  | .Imu i => imuMessage i

/-- Replace the temp_c field of an Imu message with the decoder's fixed 0.0
placeholder; identity on every other variant. -/
def zeroImuTemp : Message → Message
  | .Imu i => .Imu { i with temp_c := List.replicate 8 0 }
  | m => m

/-- The constructible Message values in the sense of the spec: a Wheels
value carries the auto-derived checksum its constructor computes, and an
Imu value's nine float fields are genuine 8-byte f64 representations.
Led, Arm and Science values carry no constraint. -/
def Message.constructible : Message → Prop
  | .Wheels w => w.checksum = w.computedChecksum
  | .Imu i =>
    i.accel_x.length = 8 ∧ i.accel_y.length = 8 ∧ i.accel_z.length = 8 ∧
    i.gyro_x.length = 8 ∧ i.gyro_y.length = 8 ∧ i.gyro_z.length = 8 ∧
    i.compass_x.length = 8 ∧ i.compass_y.length = 8 ∧ i.compass_z.length = 8
  | _ => True

/-- A concrete Imu value whose temperature field is not the decoder's 0.0
placeholder: low byte 1, a genuine (subnormal) f64 bit pattern. -/
def imuTempCex : Imu :=
  { accel_x := List.replicate 8 0,
    accel_y := List.replicate 8 0,
    accel_z := List.replicate 8 0,
    gyro_x := List.replicate 8 0,
    gyro_y := List.replicate 8 0,
    gyro_z := List.replicate 8 0,
    compass_x := List.replicate 8 0,
    compass_y := List.replicate 8 0,
    compass_z := List.replicate 8 0,
    temp_c := [1, 0, 0, 0, 0, 0, 0, 0] }

deriving instance DecidableEq for Except

/-!
## Helper lemmas
-/

/-- The u32 accumulation of the checksum sum never matters: masking to the
low 8 bits after reducing modulo 2^32 is reducing modulo 256. -/
theorem computeChecksum_val (bytes : List Byte) :
    (computeChecksum bytes).val = (bytes.map Fin.val).sum % 256 := by
  simp only [computeChecksum, U32_MOD]
  exact Nat.mod_mod_of_dvd _ ⟨16777216, by norm_num⟩

theorem get?_eq_some_getD (l : List Byte) :
    ∀ i, i < l.length → l.get? i = some (l.getD i 0) := by
  induction l with
  | nil => intro i h; simp at h
  | cons a t ih =>
    intro i h
    cases i with
    | zero => rfl
    | succ j =>
      simp only [List.get?, List.getD_cons_succ]
      exact ih j (by simpa using h)

theorem readF64Checked_eq_some {input : List Byte} {a : Nat} (h : a + 8 ≤ input.length) :
    readF64Checked input a = some (readF64 input a) := by
  unfold readF64Checked readF64
  rw [if_pos]
  simp only [List.length_take, List.length_drop]
  omega


theorem ledPart_ne_wheelsPart : Led.PART_BYTE ≠ Wheels.PART_BYTE := by decide

theorem armSub_ne_wheelsSub : Arm.SUBSYSTEM_BYTE ≠ Wheels.SUBSYSTEM_BYTE := by decide

theorem sciSub_ne_wheelsSub : Science.SUBSYSTEM_BYTE ≠ Wheels.SUBSYSTEM_BYTE := by decide

theorem sciSub_ne_armSub : Science.SUBSYSTEM_BYTE ≠ Arm.SUBSYSTEM_BYTE := by decide

theorem imuSub_ne_wheelsSub : Imu.SUBSYSTEM_BYTE ≠ Wheels.SUBSYSTEM_BYTE := by decide

theorem imuSub_ne_armSub : Imu.SUBSYSTEM_BYTE ≠ Arm.SUBSYSTEM_BYTE := by decide

theorem imuSub_ne_sciSub : Imu.SUBSYSTEM_BYTE ≠ Science.SUBSYSTEM_BYTE := by decide

theorem parseChecked_eq_parse (input : List Byte) :
    parseChecked input = some (parse input) := by
  have hmod : input.length % U32_MOD ≤ input.length := Nat.mod_le _ _
  by_cases h0 : input.length % U32_MOD < 1
  · simp only [parse, parseChecked, h0, ite_true, if_true]
  · by_cases hW : input.getD 0 0 = Wheels.SUBSYSTEM_BYTE
    · by_cases h2 : input.length % U32_MOD < 2
      · simp only [parse, parseChecked, h0, h2, hW, get?_eq_some_getD input 0 (by omega),
          ne_eq, ite_true, ite_false, eq_self_iff_true, not_true, not_false_iff, ledPart_ne_wheelsPart, armSub_ne_wheelsSub, sciSub_ne_wheelsSub, sciSub_ne_armSub, imuSub_ne_wheelsSub, imuSub_ne_armSub, imuSub_ne_sciSub, if_true,
          if_false]
      · by_cases hP : input.getD 1 0 = Wheels.PART_BYTE
        · by_cases h5 : input.length % U32_MOD = 5
          · simp only [parse, parseChecked, check_length, h0, h2, hW, hP, h5,
              get?_eq_some_getD input 0 (by omega), get?_eq_some_getD input 1 (by omega),
              get?_eq_some_getD input 2 (by omega), get?_eq_some_getD input 3 (by omega),
              ne_eq, ite_true, ite_false, eq_self_iff_true, not_true, not_false_iff, ledPart_ne_wheelsPart, armSub_ne_wheelsSub, sciSub_ne_wheelsSub, sciSub_ne_armSub, imuSub_ne_wheelsSub, imuSub_ne_armSub, imuSub_ne_sciSub,
              if_true, if_false]
            norm_num
          · simp only [parse, parseChecked, check_length, h0, h2, hW, hP, h5,
              get?_eq_some_getD input 0 (by omega), get?_eq_some_getD input 1 (by omega),
              ne_eq, ite_true, ite_false, eq_self_iff_true, not_true, not_false_iff, ledPart_ne_wheelsPart, armSub_ne_wheelsSub, sciSub_ne_wheelsSub, sciSub_ne_armSub, imuSub_ne_wheelsSub, imuSub_ne_armSub, imuSub_ne_sciSub,
              if_true, if_false]
        · by_cases hL : input.getD 1 0 = Led.PART_BYTE
          · by_cases h5 : input.length % U32_MOD = 5
            · simp only [parse, parseChecked, check_length, h0, h2, hW, hP, hL, h5,
                get?_eq_some_getD input 0 (by omega), get?_eq_some_getD input 1 (by omega),
                get?_eq_some_getD input 2 (by omega), get?_eq_some_getD input 3 (by omega),
                get?_eq_some_getD input 4 (by omega),
                ne_eq, ite_true, ite_false, eq_self_iff_true, not_true, not_false_iff, ledPart_ne_wheelsPart, armSub_ne_wheelsSub, sciSub_ne_wheelsSub, sciSub_ne_armSub, imuSub_ne_wheelsSub, imuSub_ne_armSub, imuSub_ne_sciSub,
                if_true, if_false]
              norm_num
            · simp only [parse, parseChecked, check_length, h0, h2, hW, hP, hL, h5,
                ne_eq, get?_eq_some_getD input 0 (by omega), get?_eq_some_getD input 1 (by omega),
                ite_true, ite_false, eq_self_iff_true, not_true, not_false_iff, ledPart_ne_wheelsPart, if_true,
                if_false]
          · simp only [parse, parseChecked, h0, h2, hW, hP, hL,
              get?_eq_some_getD input 0 (by omega), get?_eq_some_getD input 1 (by omega),
              ne_eq, ite_true, ite_false, eq_self_iff_true, not_true, not_false_iff, ledPart_ne_wheelsPart, armSub_ne_wheelsSub, sciSub_ne_wheelsSub, sciSub_ne_armSub, imuSub_ne_wheelsSub, imuSub_ne_armSub, imuSub_ne_sciSub,
              if_true, if_false]
    · by_cases hA : input.getD 0 0 = Arm.SUBSYSTEM_BYTE
      · by_cases h8 : input.length % U32_MOD = 8
        · simp only [parse, parseChecked, check_length, h0, hW, hA, h8,
            get?_eq_some_getD input 0 (by omega), get?_eq_some_getD input 1 (by omega),
            get?_eq_some_getD input 2 (by omega), get?_eq_some_getD input 3 (by omega),
            get?_eq_some_getD input 4 (by omega), get?_eq_some_getD input 5 (by omega),
            get?_eq_some_getD input 6 (by omega), get?_eq_some_getD input 7 (by omega),
            ne_eq, ite_true, ite_false, eq_self_iff_true, not_true, not_false_iff, ledPart_ne_wheelsPart, armSub_ne_wheelsSub, sciSub_ne_wheelsSub, sciSub_ne_armSub, imuSub_ne_wheelsSub, imuSub_ne_armSub, imuSub_ne_sciSub,
            if_true, if_false]
          norm_num
        · simp only [parse, parseChecked, check_length, h0, hW, hA, h8,
            get?_eq_some_getD input 0 (by omega),
            ne_eq, ite_true, ite_false, eq_self_iff_true, not_true, not_false_iff, ledPart_ne_wheelsPart, armSub_ne_wheelsSub, sciSub_ne_wheelsSub, sciSub_ne_armSub, imuSub_ne_wheelsSub, imuSub_ne_armSub, imuSub_ne_sciSub,
            if_true, if_false]
      · by_cases hS : input.getD 0 0 = Science.SUBSYSTEM_BYTE
        · by_cases h7 : input.length % U32_MOD = 7
          · simp only [parse, parseChecked, check_length, h0, hW, hA, hS, h7,
              get?_eq_some_getD input 0 (by omega), get?_eq_some_getD input 1 (by omega),
              get?_eq_some_getD input 2 (by omega), get?_eq_some_getD input 3 (by omega),
              get?_eq_some_getD input 4 (by omega), get?_eq_some_getD input 5 (by omega),
              get?_eq_some_getD input 6 (by omega),
              ne_eq, ite_true, ite_false, eq_self_iff_true, not_true, not_false_iff, ledPart_ne_wheelsPart, armSub_ne_wheelsSub, sciSub_ne_wheelsSub, sciSub_ne_armSub, imuSub_ne_wheelsSub, imuSub_ne_armSub, imuSub_ne_sciSub,
              if_true, if_false]
            norm_num
          · simp only [parse, parseChecked, check_length, h0, hW, hA, hS, h7,
              get?_eq_some_getD input 0 (by omega),
              ne_eq, ite_true, ite_false, eq_self_iff_true, not_true, not_false_iff, ledPart_ne_wheelsPart, armSub_ne_wheelsSub, sciSub_ne_wheelsSub, sciSub_ne_armSub, imuSub_ne_wheelsSub, imuSub_ne_armSub, imuSub_ne_sciSub,
              if_true, if_false]
        · by_cases hI : input.getD 0 0 = Imu.SUBSYSTEM_BYTE
          · by_cases h73 : input.length % U32_MOD = 73
            · simp only [parse, parseChecked, check_length, h0, hW, hA, hS, hI, h73,
                get?_eq_some_getD input 0 (by omega),
                readF64Checked_eq_some (show 1 + 8 ≤ input.length by omega),
                readF64Checked_eq_some (show 9 + 8 ≤ input.length by omega),
                readF64Checked_eq_some (show 17 + 8 ≤ input.length by omega),
                readF64Checked_eq_some (show 25 + 8 ≤ input.length by omega),
                readF64Checked_eq_some (show 33 + 8 ≤ input.length by omega),
                readF64Checked_eq_some (show 41 + 8 ≤ input.length by omega),
                readF64Checked_eq_some (show 49 + 8 ≤ input.length by omega),
                readF64Checked_eq_some (show 57 + 8 ≤ input.length by omega),
                readF64Checked_eq_some (show 65 + 8 ≤ input.length by omega),
                ne_eq, ite_true, ite_false, eq_self_iff_true, not_true, not_false_iff, ledPart_ne_wheelsPart, armSub_ne_wheelsSub, sciSub_ne_wheelsSub, sciSub_ne_armSub, imuSub_ne_wheelsSub, imuSub_ne_armSub, imuSub_ne_sciSub,
                if_true, if_false]
              norm_num
            · simp only [parse, parseChecked, check_length, h0, hW, hA, hS, hI, h73,
                get?_eq_some_getD input 0 (by omega),
                ne_eq, ite_true, ite_false, eq_self_iff_true, not_true, not_false_iff, ledPart_ne_wheelsPart, armSub_ne_wheelsSub, sciSub_ne_wheelsSub, sciSub_ne_armSub, imuSub_ne_wheelsSub, imuSub_ne_armSub, imuSub_ne_sciSub,
                if_true, if_false]
          · simp only [parse, parseChecked, h0, hW, hA, hS, hI,
              get?_eq_some_getD input 0 (by omega),
              ne_eq, ite_true, ite_false, eq_self_iff_true, not_true, not_false_iff, ledPart_ne_wheelsPart, armSub_ne_wheelsSub, sciSub_ne_wheelsSub, sciSub_ne_armSub, imuSub_ne_wheelsSub, imuSub_ne_armSub, imuSub_ne_sciSub,
              if_true, if_false]

/-- The five buffers the encode path writes always decode: a wheels buffer
decodes to the constructor-rebuilt Wheels value (the wire checksum byte is
discarded), and the other variants decode to the encoded value itself, the
Imu temperature field coming back as the fixed placeholder. -/
theorem parse_wheelsMessage (w : Wheels) :
    parse (wheelsMessage w) = .ok (.Wheels (Wheels.new w.left w.right)) := rfl

theorem parse_ledMessage (l : Led) : parse (ledMessage l) = .ok (.Led l) := rfl

theorem parse_armMessage (a : Arm) : parse (armMessage a) = .ok (.Arm a) := rfl

theorem parse_scienceMessage (s : Science) : parse (scienceMessage s) = .ok (.Science s) := rfl

theorem parse_imuMessage (i : Imu)
    (h1 : i.accel_x.length = 8) (h2 : i.accel_y.length = 8) (h3 : i.accel_z.length = 8)
    (h4 : i.gyro_x.length = 8) (h5 : i.gyro_y.length = 8) (h6 : i.gyro_z.length = 8)
    (h7 : i.compass_x.length = 8) (h8 : i.compass_y.length = 8) (h9 : i.compass_z.length = 8) :
    parse (imuMessage i) = .ok (.Imu { i with temp_c := List.replicate 8 0 }) := by
  have d1 : (imuMessage i).drop 1 =
      i.accel_x ++ (i.accel_y ++ (i.accel_z ++ (i.gyro_x ++ (i.gyro_y ++ (i.gyro_z ++
        (i.compass_x ++ (i.compass_y ++ i.compass_z))))))) := rfl
  have d2 : (imuMessage i).drop 9 =
      i.accel_y ++ (i.accel_z ++ (i.gyro_x ++ (i.gyro_y ++ (i.gyro_z ++
        (i.compass_x ++ (i.compass_y ++ i.compass_z)))))) := by
    rw [show (9 : Nat) = 1 + 8 from rfl, ← List.drop_drop, d1, List.drop_left' h1]
  have d3 : (imuMessage i).drop 17 =
      i.accel_z ++ (i.gyro_x ++ (i.gyro_y ++ (i.gyro_z ++
        (i.compass_x ++ (i.compass_y ++ i.compass_z))))) := by
    rw [show (17 : Nat) = 9 + 8 from rfl, ← List.drop_drop, d2, List.drop_left' h2]
  have d4 : (imuMessage i).drop 25 =
      i.gyro_x ++ (i.gyro_y ++ (i.gyro_z ++ (i.compass_x ++ (i.compass_y ++ i.compass_z)))) := by
    rw [show (25 : Nat) = 17 + 8 from rfl, ← List.drop_drop, d3, List.drop_left' h3]
  have d5 : (imuMessage i).drop 33 =
      i.gyro_y ++ (i.gyro_z ++ (i.compass_x ++ (i.compass_y ++ i.compass_z))) := by
    rw [show (33 : Nat) = 25 + 8 from rfl, ← List.drop_drop, d4, List.drop_left' h4]
  have d6 : (imuMessage i).drop 41 =
      i.gyro_z ++ (i.compass_x ++ (i.compass_y ++ i.compass_z)) := by
    rw [show (41 : Nat) = 33 + 8 from rfl, ← List.drop_drop, d5, List.drop_left' h5]
  have d7 : (imuMessage i).drop 49 =
      i.compass_x ++ (i.compass_y ++ i.compass_z) := by
    rw [show (49 : Nat) = 41 + 8 from rfl, ← List.drop_drop, d6, List.drop_left' h6]
  have d8 : (imuMessage i).drop 57 = i.compass_y ++ i.compass_z := by
    rw [show (57 : Nat) = 49 + 8 from rfl, ← List.drop_drop, d7, List.drop_left' h7]
  have d9 : (imuMessage i).drop 65 = i.compass_z := by
    rw [show (65 : Nat) = 57 + 8 from rfl, ← List.drop_drop, d8, List.drop_left' h8]
  have e1 : readF64 (imuMessage i) 1 = i.accel_x := by
    rw [readF64, d1, List.take_left' h1]
  have e2 : readF64 (imuMessage i) 9 = i.accel_y := by
    rw [readF64, d2, List.take_left' h2]
  have e3 : readF64 (imuMessage i) 17 = i.accel_z := by
    rw [readF64, d3, List.take_left' h3]
  have e4 : readF64 (imuMessage i) 25 = i.gyro_x := by
    rw [readF64, d4, List.take_left' h4]
  have e5 : readF64 (imuMessage i) 33 = i.gyro_y := by
    rw [readF64, d5, List.take_left' h5]
  have e6 : readF64 (imuMessage i) 41 = i.gyro_z := by
    rw [readF64, d6, List.take_left' h6]
  have e7 : readF64 (imuMessage i) 49 = i.compass_x := by
    rw [readF64, d7, List.take_left' h7]
  have e8 : readF64 (imuMessage i) 57 = i.compass_y := by
    rw [readF64, d8, List.take_left' h8]
  have e9 : readF64 (imuMessage i) 65 = i.compass_z := by
    rw [readF64, d9, ← h9, List.take_length]
  have hlen : (imuMessage i).length = 73 := by
    simp [imuMessage, h1, h2, h3, h4, h5, h6, h7, h8, h9]
  simp only [parse, check_length, hlen, e1, e2, e3, e4, e5, e6, e7, e8, e9]
  norm_num [U32_MOD, imuMessage, imuSub_ne_wheelsSub, imuSub_ne_armSub, imuSub_ne_sciSub]

/-- A slice whose length is a nonzero multiple of 2^32 defeats the u32 cast:
the computed input length is 0 and parse reports an empty slice. -/
theorem parse_of_wrapped_length (input : List Byte) (h : input.length % U32_MOD = 0) :
    parse input = .error .ZeroLengthSlice := by
  simp only [parse, h]
  norm_num

/-!
## Claims
-/

/-- C1 (amended): decoding the encoded buffer of a constructible Message
reproduces it field for field — exactly for Wheels (built by the deriving
constructor), Led, Arm and Science; for Imu the nine wire-carried float
fields round-trip but the temperature field comes back as the decoder's
fixed 0.0 placeholder, so the original claim's full equality fails there
(see the counterexample). -/
theorem claim_C1_round_trip (m : Message) (h : m.constructible) :
    parse (encodeMessage m) = .ok (zeroImuTemp m) := by
  cases m with
  | Wheels w =>
    simp only [Message.constructible] at h
    have hnew : Wheels.new w.left w.right = w := by
      cases w with
      | mk l r c =>
        simp only [Wheels.computedChecksum, Wheels.to_checksum_array] at h
        simp [Wheels.new, h]
    simp [encodeMessage, zeroImuTemp, parse_wheelsMessage w, hnew]
  | Led l => simp [encodeMessage, zeroImuTemp, parse_ledMessage l]
  | Arm a => simp [encodeMessage, zeroImuTemp, parse_armMessage a]
  | Science s => simp [encodeMessage, zeroImuTemp, parse_scienceMessage s]
  | Imu i =>
    obtain ⟨h1, h2, h3, h4, h5, h6, h7, h8, h9⟩ := h
    simp [encodeMessage, zeroImuTemp, parse_imuMessage i h1 h2 h3 h4 h5 h6 h7 h8 h9]

/-- C1 witness: the round trip at the concrete wheels value built from
speeds 3 and 5. -/
theorem claim_C1_round_trip_witness :
    parse (encodeMessage (.Wheels (Wheels.new 3 5))) =
      .ok (zeroImuTemp (.Wheels (Wheels.new 3 5))) :=
  claim_C1_round_trip (.Wheels (Wheels.new 3 5))
    (show (Wheels.new 3 5).checksum = (Wheels.new 3 5).computedChecksum by decide)

/-- C1 counterexample: a constructible Imu value with a nonzero temperature
field does not survive the round trip, because the wire format does not
carry the temperature and the decoder resets it to the placeholder. -/
theorem claim_C1_counterexample :
    Message.constructible (.Imu imuTempCex) ∧
    parse (encodeMessage (.Imu imuTempCex)) ≠ .ok (.Imu imuTempCex) :=
  ⟨⟨rfl, rfl, rfl, rfl, rfl, rfl, rfl, rfl, rfl⟩, by decide⟩

/-- C2: parse is pure and total — for every finite input it returns exactly
one outcome, and it never panics: the variant parseChecked, in which every
slice index and every sub-slice conversion performed after a length check
is bounds-checked (a panic being none), agrees with the total function
parse on every input. -/
theorem claim_C2_parse_total (input : List Byte) :
    parseChecked input = some (parse input) :=
  parseChecked_eq_parse input

/-- C3: construction through the checksum-deriving constructors (the
spec-modelled Wheels::new, and the spec-modelled deriving constructors for
Arm and Science) computes the checksum from the payload bytes by 8-bit
wraparound addition, so is_checksum_correct holds on every
constructor-built value, and changing any single payload byte (leaving the
stored checksum) falsifies it. -/
theorem claim_C3_checksum_construction :
    (∀ l r : Byte, (Wheels.new l r).checksum = computeChecksum [l, r]) ∧
    (∀ l r : Byte, (Wheels.new l r).is_checksum_correct = true) ∧
    (∀ a1 a2 a3 a4 a5 a6 : Byte, (Arm.withChecksum a1 a2 a3 a4 a5 a6).is_checksum_correct = true) ∧
    (∀ s1 s2 s3 s4 s5 : Byte, (Science.withChecksum s1 s2 s3 s4 s5).is_checksum_correct = true) ∧
    (∀ l r x : Byte, x ≠ l → { Wheels.new l r with left := x }.is_checksum_correct = false) ∧
    (∀ l r x : Byte, x ≠ r → { Wheels.new l r with right := x }.is_checksum_correct = false) ∧
    (∀ a1 a2 a3 a4 a5 a6 x : Byte, x ≠ a1 →
      { Arm.withChecksum a1 a2 a3 a4 a5 a6 with bicep := x }.is_checksum_correct = false) ∧
    (∀ a1 a2 a3 a4 a5 a6 x : Byte, x ≠ a2 →
      { Arm.withChecksum a1 a2 a3 a4 a5 a6 with forearm := x }.is_checksum_correct = false) ∧
    (∀ a1 a2 a3 a4 a5 a6 x : Byte, x ≠ a3 →
      { Arm.withChecksum a1 a2 a3 a4 a5 a6 with base := x }.is_checksum_correct = false) ∧
    (∀ a1 a2 a3 a4 a5 a6 x : Byte, x ≠ a4 →
      { Arm.withChecksum a1 a2 a3 a4 a5 a6 with wrist_pitch := x }.is_checksum_correct = false) ∧
    (∀ a1 a2 a3 a4 a5 a6 x : Byte, x ≠ a5 →
      { Arm.withChecksum a1 a2 a3 a4 a5 a6 with wrist_roll := x }.is_checksum_correct = false) ∧
    (∀ a1 a2 a3 a4 a5 a6 x : Byte, x ≠ a6 →
      { Arm.withChecksum a1 a2 a3 a4 a5 a6 with claw := x }.is_checksum_correct = false) ∧
    (∀ s1 s2 s3 s4 s5 x : Byte, x ≠ s1 →
      { Science.withChecksum s1 s2 s3 s4 s5 with big_actuator := x }.is_checksum_correct = false) ∧
    (∀ s1 s2 s3 s4 s5 x : Byte, x ≠ s2 →
      { Science.withChecksum s1 s2 s3 s4 s5 with drill := x }.is_checksum_correct = false) ∧
    (∀ s1 s2 s3 s4 s5 x : Byte, x ≠ s3 →
      { Science.withChecksum s1 s2 s3 s4 s5 with small_actuator := x }.is_checksum_correct = false) ∧
    (∀ s1 s2 s3 s4 s5 x : Byte, x ≠ s4 →
      { Science.withChecksum s1 s2 s3 s4 s5 with test_tubes := x }.is_checksum_correct = false) ∧
    (∀ s1 s2 s3 s4 s5 x : Byte, x ≠ s5 →
      { Science.withChecksum s1 s2 s3 s4 s5 with camera_servo := x }.is_checksum_correct = false) := by
  refine ⟨?_, ?_, ?_, ?_, ?_, ?_, ?_, ?_, ?_, ?_, ?_, ?_, ?_, ?_, ?_, ?_, ?_⟩
  · exact fun l r => rfl
  · intro l r
    simp [Wheels.is_checksum_correct, Wheels.computedChecksum, Wheels.to_checksum_array,
      Wheels.new]
  · intro a1 a2 a3 a4 a5 a6
    simp [Arm.is_checksum_correct, Arm.computedChecksum, Arm.to_checksum_array,
      Arm.withChecksum]
  · intro s1 s2 s3 s4 s5
    simp [Science.is_checksum_correct, Science.computedChecksum, Science.to_checksum_array,
      Science.withChecksum]
  · intro l r x hx
    have hxv : x.val ≠ l.val := fun hv => hx (Fin.ext hv)
    have u1 := x.isLt
    have u2 := l.isLt
    have u3 := r.isLt
    simp [Wheels.is_checksum_correct, Wheels.computedChecksum, Wheels.to_checksum_array,
      Wheels.new, Fin.ext_iff, computeChecksum_val, decide_eq_false_iff_not]
    omega
  · intro l r x hx
    have hxv : x.val ≠ r.val := fun hv => hx (Fin.ext hv)
    have u1 := x.isLt
    have u2 := l.isLt
    have u3 := r.isLt
    simp [Wheels.is_checksum_correct, Wheels.computedChecksum, Wheels.to_checksum_array,
      Wheels.new, Fin.ext_iff, computeChecksum_val, decide_eq_false_iff_not]
    omega
  · intro a1 a2 a3 a4 a5 a6 x hx
    have hxv : x.val ≠ a1.val := fun hv => hx (Fin.ext hv)
    have u1 := x.isLt
    have u2 := a1.isLt
    simp [Arm.is_checksum_correct, Arm.computedChecksum, Arm.to_checksum_array,
      Arm.withChecksum, Fin.ext_iff, computeChecksum_val, decide_eq_false_iff_not]
    omega
  · intro a1 a2 a3 a4 a5 a6 x hx
    have hxv : x.val ≠ a2.val := fun hv => hx (Fin.ext hv)
    have u1 := x.isLt
    have u2 := a2.isLt
    simp [Arm.is_checksum_correct, Arm.computedChecksum, Arm.to_checksum_array,
      Arm.withChecksum, Fin.ext_iff, computeChecksum_val, decide_eq_false_iff_not]
    omega
  · intro a1 a2 a3 a4 a5 a6 x hx
    have hxv : x.val ≠ a3.val := fun hv => hx (Fin.ext hv)
    have u1 := x.isLt
    have u2 := a3.isLt
    simp [Arm.is_checksum_correct, Arm.computedChecksum, Arm.to_checksum_array,
      Arm.withChecksum, Fin.ext_iff, computeChecksum_val, decide_eq_false_iff_not]
    omega
  · intro a1 a2 a3 a4 a5 a6 x hx
    have hxv : x.val ≠ a4.val := fun hv => hx (Fin.ext hv)
    have u1 := x.isLt
    have u2 := a4.isLt
    simp [Arm.is_checksum_correct, Arm.computedChecksum, Arm.to_checksum_array,
      Arm.withChecksum, Fin.ext_iff, computeChecksum_val, decide_eq_false_iff_not]
    omega
  · intro a1 a2 a3 a4 a5 a6 x hx
    have hxv : x.val ≠ a5.val := fun hv => hx (Fin.ext hv)
    have u1 := x.isLt
    have u2 := a5.isLt
    simp [Arm.is_checksum_correct, Arm.computedChecksum, Arm.to_checksum_array,
      Arm.withChecksum, Fin.ext_iff, computeChecksum_val, decide_eq_false_iff_not]
    omega
  · intro a1 a2 a3 a4 a5 a6 x hx
    have hxv : x.val ≠ a6.val := fun hv => hx (Fin.ext hv)
    have u1 := x.isLt
    have u2 := a6.isLt
    simp [Arm.is_checksum_correct, Arm.computedChecksum, Arm.to_checksum_array,
      Arm.withChecksum, Fin.ext_iff, computeChecksum_val, decide_eq_false_iff_not]
    omega
  · intro s1 s2 s3 s4 s5 x hx
    have hxv : x.val ≠ s1.val := fun hv => hx (Fin.ext hv)
    have u1 := x.isLt
    have u2 := s1.isLt
    simp [Science.is_checksum_correct, Science.computedChecksum, Science.to_checksum_array,
      Science.withChecksum, Fin.ext_iff, computeChecksum_val, decide_eq_false_iff_not]
    omega
  · intro s1 s2 s3 s4 s5 x hx
    have hxv : x.val ≠ s2.val := fun hv => hx (Fin.ext hv)
    have u1 := x.isLt
    have u2 := s2.isLt
    simp [Science.is_checksum_correct, Science.computedChecksum, Science.to_checksum_array,
      Science.withChecksum, Fin.ext_iff, computeChecksum_val, decide_eq_false_iff_not]
    omega
  · intro s1 s2 s3 s4 s5 x hx
    have hxv : x.val ≠ s3.val := fun hv => hx (Fin.ext hv)
    have u1 := x.isLt
    have u2 := s3.isLt
    simp [Science.is_checksum_correct, Science.computedChecksum, Science.to_checksum_array,
      Science.withChecksum, Fin.ext_iff, computeChecksum_val, decide_eq_false_iff_not]
    omega
  · intro s1 s2 s3 s4 s5 x hx
    have hxv : x.val ≠ s4.val := fun hv => hx (Fin.ext hv)
    have u1 := x.isLt
    have u2 := s4.isLt
    simp [Science.is_checksum_correct, Science.computedChecksum, Science.to_checksum_array,
      Science.withChecksum, Fin.ext_iff, computeChecksum_val, decide_eq_false_iff_not]
    omega
  · intro s1 s2 s3 s4 s5 x hx
    have hxv : x.val ≠ s5.val := fun hv => hx (Fin.ext hv)
    have u1 := x.isLt
    have u2 := s5.isLt
    simp [Science.is_checksum_correct, Science.computedChecksum, Science.to_checksum_array,
      Science.withChecksum, Fin.ext_iff, computeChecksum_val, decide_eq_false_iff_not]
    omega

/-- C3 witness: concrete instances — a constructor-built Wheels verifies,
and single-byte payload mutations of constructor-built Wheels, Arm and
Science values fail verification. -/
theorem claim_C3_checksum_construction_witness :
    (Wheels.new 3 5).is_checksum_correct = true ∧
    { Wheels.new 3 5 with left := 7 }.is_checksum_correct = false ∧
    { Arm.withChecksum 1 2 3 4 5 6 with claw := 9 }.is_checksum_correct = false ∧
    { Science.withChecksum 1 2 3 4 5 with drill := 9 }.is_checksum_correct = false :=
  ⟨claim_C3_checksum_construction.2.1 3 5,
    claim_C3_checksum_construction.2.2.2.2.1 3 5 7 (by decide),
    claim_C3_checksum_construction.2.2.2.2.2.2.2.2.2.2.2.1 1 2 3 4 5 6 9 (by decide),
    claim_C3_checksum_construction.2.2.2.2.2.2.2.2.2.2.2.2.2.1 1 2 3 4 5 9 (by decide)⟩

/-- C4: for each checksummed variant the computed checksum is the sum of
the ordered payload-byte array accumulated in u32 and masked to the low 8
bits, which equals the plain sum reduced modulo 256; and
is_checksum_correct is exactly the boolean comparison of the stored field
with that value (a pure function with no error path). -/
theorem claim_C4_checksum_algorithm :
    (∀ w : Wheels, w.computedChecksum.val = (w.to_checksum_array.map Fin.val).sum % 256 ∧
      (w.is_checksum_correct = true ↔ w.checksum = w.computedChecksum)) ∧
    (∀ a : Arm, a.computedChecksum.val = (a.to_checksum_array.map Fin.val).sum % 256 ∧
      (a.is_checksum_correct = true ↔ a.checksum = a.computedChecksum)) ∧
    (∀ s : Science, s.computedChecksum.val = (s.to_checksum_array.map Fin.val).sum % 256 ∧
      (s.is_checksum_correct = true ↔ s.checksum = s.computedChecksum)) := by
  refine ⟨fun w => ⟨computeChecksum_val _, ?_⟩, fun a => ⟨computeChecksum_val _, ?_⟩,
    fun s => ⟨computeChecksum_val _, ?_⟩⟩ <;>
    simp [Wheels.is_checksum_correct, Arm.is_checksum_correct, Science.is_checksum_correct]

/-- C5: for each variant, an input whose subsystem (and part) byte is
recognized but whose total length is one byte shorter or longer than the
fixed contract fails with LengthInconsistency carrying the observed and
expected lengths (part byte 0 when not applicable), and an input of
exactly the expected length never fails the length check. -/
theorem claim_C5_length_boundary :
    (∀ a b : Byte, parse [1, 1, a, b] = .error (.LengthInconsistency 1 1 4 5)) ∧
    (∀ a b c d : Byte, parse [1, 1, a, b, c, d] = .error (.LengthInconsistency 1 1 6 5)) ∧
    (∀ a b c : Byte, parse [1, 1, a, b, c] = .ok (.Wheels (Wheels.new a b))) ∧
    (∀ a b : Byte, parse [1, 2, a, b] = .error (.LengthInconsistency 1 2 4 5)) ∧
    (∀ a b c d : Byte, parse [1, 2, a, b, c, d] = .error (.LengthInconsistency 1 2 6 5)) ∧
    (∀ a b c : Byte, parse [1, 2, a, b, c] = .ok (.Led ⟨a, b, c⟩)) ∧
    (∀ a1 a2 a3 a4 a5 a6 : Byte,
      parse [2, a1, a2, a3, a4, a5, a6] = .error (.LengthInconsistency 2 0 7 8)) ∧
    (∀ a1 a2 a3 a4 a5 a6 a7 a8 : Byte,
      parse [2, a1, a2, a3, a4, a5, a6, a7, a8] = .error (.LengthInconsistency 2 0 9 8)) ∧
    (∀ a1 a2 a3 a4 a5 a6 a7 : Byte,
      parse [2, a1, a2, a3, a4, a5, a6, a7] = .ok (.Arm ⟨a1, a2, a3, a4, a5, a6, a7⟩)) ∧
    (∀ s1 s2 s3 s4 s5 : Byte,
      parse [3, s1, s2, s3, s4, s5] = .error (.LengthInconsistency 3 0 6 7)) ∧
    (∀ s1 s2 s3 s4 s5 s6 s7 : Byte,
      parse [3, s1, s2, s3, s4, s5, s6, s7] = .error (.LengthInconsistency 3 0 8 7)) ∧
    (∀ s1 s2 s3 s4 s5 s6 : Byte,
      parse [3, s1, s2, s3, s4, s5, s6] = .ok (.Science ⟨s1, s2, s3, s4, s5, s6⟩)) ∧
    (∀ rest : List Byte, rest.length = 71 →
      parse (Imu.SUBSYSTEM_BYTE :: rest) = .error (.LengthInconsistency 4 0 72 73)) ∧
    (∀ rest : List Byte, rest.length = 73 →
      parse (Imu.SUBSYSTEM_BYTE :: rest) = .error (.LengthInconsistency 4 0 74 73)) ∧
    (∀ rest : List Byte, rest.length = 72 →
      ∃ m, parse (Imu.SUBSYSTEM_BYTE :: rest) = .ok m) := by
  refine ⟨fun _ _ => rfl, fun _ _ _ _ => rfl, fun _ _ _ => rfl, fun _ _ => rfl,
    fun _ _ _ _ => rfl, fun _ _ _ => rfl, fun _ _ _ _ _ _ => rfl,
    fun _ _ _ _ _ _ _ _ => rfl, fun _ _ _ _ _ _ _ => rfl,
    fun _ _ _ _ _ => rfl, fun _ _ _ _ _ _ _ => rfl,
    fun _ _ _ _ _ _ => rfl, ?_, ?_, ?_⟩
  · intro rest h
    simp only [parse, check_length, List.length_cons, List.getD_cons_zero, h]
    norm_num [U32_MOD, imuSub_ne_wheelsSub, imuSub_ne_armSub, imuSub_ne_sciSub]
    rfl
  · intro rest h
    simp only [parse, check_length, List.length_cons, List.getD_cons_zero, h]
    norm_num [U32_MOD, imuSub_ne_wheelsSub, imuSub_ne_armSub, imuSub_ne_sciSub]
    rfl
  · intro rest h
    simp only [parse, check_length, List.length_cons, List.getD_cons_zero, h]
    norm_num [U32_MOD, imuSub_ne_wheelsSub, imuSub_ne_armSub, imuSub_ne_sciSub]

/-- C5 witness: the Imu length boundary at concrete all-zero payloads of
lengths 72, 74 and 73 (one short, one long, exact). -/
theorem claim_C5_length_boundary_witness :
    parse (Imu.SUBSYSTEM_BYTE :: List.replicate 71 0) = .error (.LengthInconsistency 4 0 72 73) ∧
    parse (Imu.SUBSYSTEM_BYTE :: List.replicate 73 0) = .error (.LengthInconsistency 4 0 74 73) ∧
    (∃ m, parse (Imu.SUBSYSTEM_BYTE :: List.replicate 72 0) = .ok m) :=
  ⟨claim_C5_length_boundary.2.2.2.2.2.2.2.2.2.2.2.2.1 (List.replicate 71 0) rfl,
    claim_C5_length_boundary.2.2.2.2.2.2.2.2.2.2.2.2.2.1 (List.replicate 73 0) rfl,
    claim_C5_length_boundary.2.2.2.2.2.2.2.2.2.2.2.2.2.2 (List.replicate 72 0) rfl⟩

/-- C6 (amended): decoding the single byte 0x01 fails with NoEboxPart, and
an input starting with 0x01 whose second byte is neither part 0x01 nor
part 0x02 fails with InvalidSubsystem carrying that byte for every
trailing byte count whose u32-cast total length is still at least 2; for
total lengths that are multiples of 2^32 the length cast wraps and the
decoder reports ZeroLengthSlice instead (see the counterexample). -/
theorem claim_C6_part_dispatch :
    parse [1] = .error .NoEboxPart ∧
    (∀ (p : Byte) (rest : List Byte), p ≠ Wheels.PART_BYTE → p ≠ Led.PART_BYTE →
      2 ≤ (2 + rest.length) % U32_MOD →
      parse (Wheels.SUBSYSTEM_BYTE :: p :: rest) = .error (.InvalidSubsystem p)) := by
  refine ⟨rfl, ?_⟩
  intro p rest h1 h2 h3
  have hco : rest.length + 1 + 1 = 2 + rest.length := by omega
  have hne0 : ¬((rest.length + 1 + 1) % U32_MOD < 1) := by rw [hco]; omega
  have hne2 : ¬((rest.length + 1 + 1) % U32_MOD < 2) := by rw [hco]; omega
  simp only [parse, List.length_cons, List.getD_cons_zero, List.getD_cons_succ, hne0, hne2,
    h1, h2, ne_eq, eq_self_iff_true, ite_true, ite_false, if_true, if_false]

/-- C6 witness: the two-byte input 0x01 0x09 fails with InvalidSubsystem
carrying 0x09. -/
theorem claim_C6_part_dispatch_witness :
    parse [1, 9] = .error (.InvalidSubsystem 9) :=
  claim_C6_part_dispatch.2 9 [] (by decide) (by decide) (by decide)

/-- C6 counterexample: the invalid-part error is not independent of the
trailing byte count — a frame of total length 2^32 starting 0x01 0x09
wraps the u32 length cast to 0 and fails with ZeroLengthSlice, not with
InvalidSubsystem 0x09. -/
theorem claim_C6_counterexample :
    parse ((1 : Byte) :: (9 : Byte) :: List.replicate 4294967294 0) = .error .ZeroLengthSlice ∧
    parse ((1 : Byte) :: (9 : Byte) :: List.replicate 4294967294 0) ≠
      .error (.InvalidSubsystem 9) := by
  have h : parse ((1 : Byte) :: (9 : Byte) :: List.replicate 4294967294 0)
      = .error .ZeroLengthSlice :=
    parse_of_wrapped_length _ (by
      rw [List.length_cons, List.length_cons, List.length_replicate]
      norm_num [U32_MOD])
  exact ⟨h, by rw [h]; decide⟩

/-- C7: each send operation re-runs the decoder over the buffer it has just
written and transmits only on success: its result is exactly the case
split on that parse — a MessageFailedValidation error with the socket
state untouched on decode failure, a transmission of the buffer on decode
success. -/
theorem claim_C7_send_self_check (ctrl : RoverController) (w : Wheels) (l : Led) (a : Arm) :
    (ctrl.send_wheels w = match parse (wheelsMessage w) with
      | .error e => (.error (.MessageFailedValidation e), ctrl)
      | .ok _ => (.ok (), { ctrl with sent := ctrl.sent ++ [wheelsMessage w] })) ∧
    (ctrl.send_led l = match parse (ledMessage l) with
      | .error e => (.error (.MessageFailedValidation e), ctrl)
      | .ok _ => (.ok (), { ctrl with sent := ctrl.sent ++ [ledMessage l] })) ∧
    (ctrl.send_arm a = match parse (armMessage a) with
      | .error e => (.error (.MessageFailedValidation e), ctrl)
      | .ok _ => (.ok (), { ctrl with sent := ctrl.sent ++ [armMessage a] })) :=
  ⟨rfl, rfl, rfl⟩

/-- C8: encoding the Led value red 255, green 0, blue 0 yields exactly the
five bytes 0x01 0x02 0xFF 0x00 0x00, decoding those bytes reproduces the
same struct, and send_led transmits exactly that buffer. -/
theorem claim_C8_led_scenario :
    ledMessage { red := 255, green := 0, blue := 0 } = [1, 2, 255, 0, 0] ∧
    parse [1, 2, 255, 0, 0] = .ok (.Led { red := 255, green := 0, blue := 0 }) ∧
    (RoverController.send_led { sent := [] } { red := 255, green := 0, blue := 0 }).2.sent
      = [[1, 2, 255, 0, 0]] :=
  ⟨rfl, rfl, rfl⟩

/-- C9 (amended): parse succeeds on every wheels, arm and science frame of
the contractual length whatever the trailing checksum byte is, and the
variant returned does not depend on it; for Arm and Science the stored
checksum is the trailing input byte verbatim, but for Wheels the decoder
discards the trailing byte and stores the checksum recomputed from the two
payload bytes (see the counterexample). -/
theorem claim_C9_checksum_ignored :
    (∀ a b c : Byte, parse [1, 1, a, b, c] = .ok (.Wheels (Wheels.new a b))) ∧
    (∀ a1 a2 a3 a4 a5 a6 c : Byte,
      parse [2, a1, a2, a3, a4, a5, a6, c] = .ok (.Arm ⟨a1, a2, a3, a4, a5, a6, c⟩)) ∧
    (∀ s1 s2 s3 s4 s5 c : Byte,
      parse [3, s1, s2, s3, s4, s5, c] = .ok (.Science ⟨s1, s2, s3, s4, s5, c⟩)) :=
  ⟨fun _ _ _ => rfl, fun _ _ _ _ _ _ _ => rfl, fun _ _ _ _ _ _ => rfl⟩

/-- C9 counterexample: the wheels frame 0x01 0x01 0x00 0x00 0x05 parses to
a Wheels whose stored checksum is the recomputed 0, not the wire byte 5 —
the checksum field is not taken verbatim from the input. -/
theorem claim_C9_counterexample :
    parse [1, 1, 0, 0, 5] = .ok (.Wheels { left := 0, right := 0, checksum := 0 }) ∧
    parse [1, 1, 0, 0, 5] ≠ .ok (.Wheels { left := 0, right := 0, checksum := 5 }) :=
  ⟨rfl, by decide⟩

/-- C10: the encoder's self-validation branch is unreachable — for every
Wheels, Led or Arm value, the buffer the send operation writes decodes
successfully, so each send transmits its buffer, succeeds, and never
returns MessageFailedValidation. -/
theorem claim_C10_validation_unreachable (ctrl : RoverController) (w : Wheels) (l : Led)
    (a : Arm) :
    (∃ mw, parse (wheelsMessage w) = .ok mw) ∧
    (∃ ml, parse (ledMessage l) = .ok ml) ∧
    (∃ ma, parse (armMessage a) = .ok ma) ∧
    ctrl.send_wheels w = (.ok (), { ctrl with sent := ctrl.sent ++ [wheelsMessage w] }) ∧
    ctrl.send_led l = (.ok (), { ctrl with sent := ctrl.sent ++ [ledMessage l] }) ∧
    ctrl.send_arm a = (.ok (), { ctrl with sent := ctrl.sent ++ [armMessage a] }) ∧
    (∀ e, (ctrl.send_wheels w).1 ≠ .error (.MessageFailedValidation e)) ∧
    (∀ e, (ctrl.send_led l).1 ≠ .error (.MessageFailedValidation e)) ∧
    (∀ e, (ctrl.send_arm a).1 ≠ .error (.MessageFailedValidation e)) := by
  refine ⟨⟨_, parse_wheelsMessage w⟩, ⟨_, parse_ledMessage l⟩, ⟨_, parse_armMessage a⟩,
    ?_, ?_, ?_, ?_, ?_, ?_⟩ <;>
    simp [RoverController.send_wheels, RoverController.send_led, RoverController.send_arm,
      parse_wheelsMessage, parse_ledMessage, parse_armMessage]
